import Mathlib

/-!
Shallow embedding of `src/n2yo_wrapper.py` (class `N2YOClient`).

Modelling conventions:
* Python numbers: satellite ids, day counts, seconds and epoch timestamps are
  `Int`; observer coordinates (Python floats) are `Rat`.
* Python truthiness on a number is `≠ 0`; on a string it is `≠ ""`.
* An HTTP exchange is an oracle value of type `HttpResult β`: either a
  transport failure (`requests.RequestException`, which also covers non-2xx
  statuses raised by `raise_for_status`) or a successfully parsed JSON body of
  shape `β`.  Optional JSON keys are `Option` fields.
* Each client method becomes a function returning
  `List Request × Except PyError α`: the list is the trace of outbound HTTP
  GET requests the method issued (so "no network call" is `trace = []`), and
  the second component is the Python outcome (`.error` = the method raised,
  `.ok` = the method returned; methods that return `None` on transport
  failure have result type `Option α` and yield `.ok none` there).
* `datetime.fromtimestamp(t, tz=utc)` (possibly followed by `astimezone()`)
  is modelled as `PyDatetime`: the epoch second together with a flag telling
  whether it was re-expressed in the local timezone; `astimezone` never
  changes the instant, so subtraction works on the epoch field.
-/

/-- Errors a client method can raise. -/
inductive PyError where
  | valueError (msg : String)
  | keyError (key : String)
  | transportError (msg : String)
deriving DecidableEq

/-- Outcome of one HTTP GET: transport failure or a parsed JSON body. -/
inductive HttpResult (β : Type) where
  | transportFailure (msg : String)
  | success (body : β)
deriving DecidableEq

/-- An outbound request, identified by endpoint and the parameters
interpolated into its URL (`base/…/&apiKey={key}`). -/
inductive Request where
  | tle (sat_id : Int)
  | visualpasses (sat_id : Int) (lat lng alt : Rat) (days min_visibility : Int)
  | positions (sat_id : Int) (lat lng alt : Rat) (seconds : Int)
  | radiopasses (sat_id : Int) (lat lng alt : Rat) (days min_elevation : Int)
  | above (lat lng alt : Rat) (search_radius category_id : Int)
deriving DecidableEq

/-- A timezone-aware Python `datetime`: the UTC epoch second and whether
`astimezone()` re-expressed it in the local zone. -/
structure PyDatetime where
  epoch : Int
  localized : Bool
deriving DecidableEq

/-- Characters stripped by Python `str.strip()` (ASCII whitespace). -/
def pyIsSpace (c : Char) : Bool :=
  c = ' ' || c = '\t' || c = '\n' || c = '\r' || c = '\x0b' || c = '\x0c'

/-- A string is blank when `line.strip()` is empty, i.e. every character is
whitespace (in particular the empty string is blank). -/
def pyBlank (s : String) : Bool :=
  s.data.all pyIsSpace

/-- Python `str.split` against the fixed separator `"\r\n"`, scanning left to
right over the character list. -/
def splitCRLFAux : List Char → List Char → List (List Char)
  | [], acc => [acc.reverse]
  | '\r' :: '\n' :: rest, acc => acc.reverse :: splitCRLFAux rest []
  | c :: rest, acc => splitCRLFAux rest (c :: acc)

/-- Python `s.split("\r\n")`. -/
def pySplitCRLF (s : String) : List String :=
  (splitCRLFAux s.data []).map fun cs => String.mk cs

/-- The list `[line for line in tleStr.split("\r\n") if line.strip()]`. -/
def tleLines (tleStr : String) : List String :=
  (pySplitCRLF tleStr).filter fun l => ! pyBlank l

/-- The `info` object of the TLE and positions endpoints. -/
structure TleInfo where
  satid : Int
  satname : String
  transactionscount : Int
deriving DecidableEq

/-- JSON body of the `tle` endpoint; either top-level key may be absent. -/
structure TleResponse where
  info : Option TleInfo
  tle : Option String
deriving DecidableEq

/-- Dictionary returned by `get_tle` (the nested `tle` dict is flattened into
its two line fields). -/
structure TleResult where
  satid : Int
  satname : String
  transactions : Int
  line1 : Option String
  line2 : Option String
deriving DecidableEq

/-- Embeds `N2YOClient.get_tle`. -/
def get_tle (sat_id : Int) (net : HttpResult TleResponse) :
    List Request × Except PyError TleResult :=
  if sat_id = 0 then
    ([], .error (.valueError "sat_id is required."))
  else
    ([Request.tle sat_id],
      match net with
      | .transportFailure e => .error (.transportError e)
      | .success data =>
        match data.tle with
        | none =>
          .error (.valueError "Invalid response: 'tle' field missing from API response.")
        | some tleStr =>
          match data.info with
          | none => .error (.keyError "info")
          | some i =>
            .ok { satid := i.satid, satname := i.satname,
                  transactions := i.transactionscount,
                  line1 := (tleLines tleStr)[0]?,
                  line2 := (tleLines tleStr)[1]? })

/-- The `info` object of the passes endpoints; `satname` may be absent. -/
structure SatInfo where
  satname : Option String
deriving DecidableEq

/-- One element of the `passes` list of the `visualpasses` endpoint. -/
structure VisualPassPayload where
  startUTC : Int
  endUTC : Int
  duration : Int
  startAzCompass : String
  endAzCompass : String
  maxEl : Rat
  mag : Rat
deriving DecidableEq

/-- JSON body of the `visualpasses` endpoint. -/
structure VisualResponse where
  info : Option SatInfo
  passes : Option (List VisualPassPayload)
deriving DecidableEq

/-- One pass dictionary built by `get_visual_passes`. -/
structure VisualPassOut where
  start_time : PyDatetime
  end_time : PyDatetime
  duration_sec : Int
  start_direction : String
  end_direction : String
  max_elevation_deg : Rat
  brightness_mag : Rat
deriving DecidableEq

/-- Dictionary returned by `get_visual_passes` on the non-`None` path. -/
structure VisualResult where
  satellite : String
  passes : List VisualPassOut
deriving DecidableEq

/-- Result of `datetime.fromtimestamp(t, tz=timezone.utc)`, then `astimezone()` when
`convert_to_local` is set. -/
def mkTime (convert_to_local : Bool) (t : Int) : PyDatetime :=
  { epoch := t, localized := convert_to_local }

/-- The per-pass transformation of the `get_visual_passes` loop body. -/
def mkVisualPass (convert_to_local : Bool) (p : VisualPassPayload) : VisualPassOut :=
  { start_time := mkTime convert_to_local p.startUTC,
    end_time := mkTime convert_to_local p.endUTC,
    duration_sec := p.duration,
    start_direction := p.startAzCompass,
    end_direction := p.endAzCompass,
    max_elevation_deg := p.maxEl,
    brightness_mag := p.mag }

/-- The lookup `data.get("info").get("satname")` with default "Unknown" at each step. -/
def infoSatname : Option SatInfo → String
  | none => "Unknown"
  | some i => i.satname.getD "Unknown"

/-- Embeds `N2YOClient.get_visual_passes`.  Returns `.ok none` on transport failure
(the Python method returns `None` there instead of raising). -/
def get_visual_passes (sat_id : Int) (lat lng alt : Rat) (days min_visibility : Int)
    (convert_to_local : Bool) (net : HttpResult VisualResponse) :
    List Request × Except PyError (Option VisualResult) :=
  ([Request.visualpasses sat_id lat lng alt days min_visibility],
    match net with
    | .transportFailure _ => .ok none
    | .success data =>
      match data.passes with
      | none => .ok (some { satellite := infoSatname data.info, passes := [] })
      | some [] => .ok (some { satellite := infoSatname data.info, passes := [] })
      | some (p :: rest) =>
        match data.info with
        | none => .error (.keyError "info")
        | some i =>
          match i.satname with
          | none => .error (.keyError "satname")
          | some name =>
            .ok (some { satellite := name,
                        passes := (p :: rest).map (mkVisualPass convert_to_local) }))

/-- One element of the `passes` list of the `radiopasses` endpoint.  The
`duration` key may or may not be present: the code never reads it. -/
structure RadioPassPayload where
  startUTC : Int
  maxUTC : Int
  endUTC : Int
  duration : Option Int
  startAzCompass : String
  endAzCompass : String
  maxEl : Rat
deriving DecidableEq

/-- JSON body of the `radiopasses` endpoint. -/
structure RadioResponse where
  info : Option SatInfo
  passes : Option (List RadioPassPayload)
deriving DecidableEq

/-- One pass dictionary built by `get_radio_passes`. -/
structure RadioPassOut where
  start_time : PyDatetime
  max_time : PyDatetime
  end_time : PyDatetime
  duration_sec : Int
  start_direction : String
  end_direction : String
  max_elevation_deg : Rat
deriving DecidableEq

/-- Dictionary returned by `get_radio_passes` on the non-`None` path. -/
structure RadioResult where
  satellite : String
  passes : List RadioPassOut
deriving DecidableEq

/-- The per-pass transformation of the `get_radio_passes` loop body:
`duration_sec` is `int((end_time - start_time).total_seconds())`, computed
from the two timestamps, never from the payload `duration` key. -/
def mkRadioPass (convert_to_local : Bool) (p : RadioPassPayload) : RadioPassOut :=
  { start_time := mkTime convert_to_local p.startUTC,
    max_time := mkTime convert_to_local p.maxUTC,
    end_time := mkTime convert_to_local p.endUTC,
    duration_sec := p.endUTC - p.startUTC,
    start_direction := p.startAzCompass,
    end_direction := p.endAzCompass,
    max_elevation_deg := p.maxEl }

/-- Embeds `N2YOClient.get_radio_passes`.  Returns `.ok none` on transport failure
(the Python method returns `None` there instead of raising). -/
def get_radio_passes (sat_id : Int) (lat lng alt : Rat) (days min_elevation : Int)
    (convert_to_local : Bool) (net : HttpResult RadioResponse) :
    List Request × Except PyError (Option RadioResult) :=
  ([Request.radiopasses sat_id lat lng alt days min_elevation],
    match net with
    | .transportFailure _ => .ok none
    | .success data =>
      match data.passes with
      | none => .ok (some { satellite := infoSatname data.info, passes := [] })
      | some [] => .ok (some { satellite := infoSatname data.info, passes := [] })
      | some (p :: rest) =>
        match data.info with
        | none => .error (.keyError "info")
        | some i =>
          match i.satname with
          | none => .error (.keyError "satname")
          | some name =>
            .ok (some { satellite := name,
                        passes := (p :: rest).map (mkRadioPass convert_to_local) }))

/-- One element of the `positions` list; `sataltitude` is read with `.get`
and therefore optional. -/
structure PosPayload where
  satlatitude : Rat
  satlongitude : Rat
  sataltitude : Option Rat
  azimuth : Rat
  elevation : Rat
  ra : Rat
  dec : Rat
  timestamp : Int
deriving DecidableEq

/-- JSON body of the `positions` endpoint. -/
structure PositionsResponse where
  info : Option TleInfo
  positions : Option (List PosPayload)
deriving DecidableEq

/-- One position dictionary built by `get_positions`. -/
structure PosOut where
  latitude : Rat
  longitude : Rat
  altitude : Option Rat
  azimuth : Rat
  elevation : Rat
  ra : Rat
  dec : Rat
  timestamp : Int
deriving DecidableEq

/-- Dictionary returned by `get_positions`. -/
structure PositionsResult where
  satid : Int
  satname : String
  transactions : Int
  positions : List PosOut
deriving DecidableEq

/-- The per-point transformation of the `get_positions` loop body. -/
def mkPos (p : PosPayload) : PosOut :=
  { latitude := p.satlatitude, longitude := p.satlongitude,
    altitude := p.sataltitude, azimuth := p.azimuth,
    elevation := p.elevation, ra := p.ra, dec := p.dec,
    timestamp := p.timestamp }

/-- Embeds `N2YOClient.get_positions`.  The check `not all([sat_id, observer_lat,
observer_lng])` raises when any of the three is falsy (zero); the `seconds`
cap is checked next; both happen before the request is issued. -/
def get_positions (sat_id : Int) (observer_lat observer_lng observer_alt : Rat)
    (seconds : Int) (net : HttpResult PositionsResponse) :
    List Request × Except PyError PositionsResult :=
  if sat_id = 0 ∨ observer_lat = 0 ∨ observer_lng = 0 then
    ([], .error (.valueError "Missing required parameters (sat_id, lat, lng)."))
  else if seconds > 300 then
    ([], .error (.valueError "Seconds parameter cannot exceed 300 (per API limit)."))
  else
    ([Request.positions sat_id observer_lat observer_lng observer_alt seconds],
      match net with
      | .transportFailure e => .error (.transportError e)
      | .success data =>
        match data.positions with
        | none =>
          .error (.valueError "Invalid response: 'positions' field missing from API response.")
        | some ps =>
          match data.info with
          | none => .error (.keyError "info")
          | some i =>
            .ok { satid := i.satid, satname := i.satname,
                  transactions := i.transactionscount,
                  positions := ps.map mkPos })

/-- Numeric value of a digit string (the characters are assumed digits). -/
def digitsToNat (cs : List Char) : Nat :=
  cs.foldl (fun n c => 10 * n + (c.toNat - '0'.toNat)) 0

/-- Python `s.split("-")` for a single-character separator. -/
def splitOnDash : List Char → List (List Char)
  | [] => [[]]
  | c :: rest =>
    if c = '-' then [] :: splitOnDash rest
    else
      match splitOnDash rest with
      | [] => [[c]]
      | g :: gs => (c :: g) :: gs

/-- A parsed calendar date (`datetime` with the time part zero). -/
structure PyDate where
  year : Nat
  month : Nat
  day : Nat
deriving DecidableEq

/-- Gregorian leap-year rule used by `datetime`. -/
def isLeap (y : Nat) : Bool :=
  y % 4 = 0 && (y % 100 != 0 || y % 400 = 0)

/-- Length of a month as validated by the `datetime` constructor. -/
def daysInMonth (y m : Nat) : Nat :=
  if m = 2 then (if isLeap y then 29 else 28)
  else if m = 4 ∨ m = 6 ∨ m = 9 ∨ m = 11 then 30
  else 31

/-- Result of `datetime.strptime(s, "%Y-%m-%d")`, `none` when it raises:
the string must be exactly a 4-digit year, a dash, a 1-2 digit month in
1..12, a dash and a 1-2 digit day valid for that month, with nothing left
over; the year must be at least `MINYEAR = 1`. -/
def pyStrptimeDate (s : String) : Option PyDate :=
  match splitOnDash s.data with
  | [ys, ms, ds] =>
    if ys.all Char.isDigit ∧ ms.all Char.isDigit ∧ ds.all Char.isDigit then
      let y := digitsToNat ys
      let m := digitsToNat ms
      let d := digitsToNat ds
      if ys.length = 4 ∧ 1 ≤ y ∧
         1 ≤ ms.length ∧ ms.length ≤ 2 ∧ 1 ≤ m ∧ m ≤ 12 ∧
         1 ≤ ds.length ∧ ds.length ≤ 2 ∧ 1 ≤ d ∧ d ≤ daysInMonth y m then
        some { year := y, month := m, day := d }
      else none
    else none
  | _ => none

/-- The `info` object of the `above` endpoint; both keys may be absent. -/
structure AboveInfo where
  category : Option String
  satcount : Option Int
deriving DecidableEq

/-- One element of the `above` list.  `launchDate` may be absent (a missing
key raises `KeyError`, which the per-satellite `except` swallows). -/
structure AboveSat where
  satid : Int
  satname : String
  intDesignator : String
  launchDate : Option String
  satlat : Rat
  satlng : Rat
  satalt : Rat
deriving DecidableEq

/-- JSON body of the `above` endpoint. -/
structure AboveResponse where
  info : Option AboveInfo
  above : Option (List AboveSat)
deriving DecidableEq

/-- One satellite summary built by `get_objects_above`. -/
structure AboveSatOut where
  id : Int
  name : String
  intl_designator : String
  launch_date : Option PyDate
  latitude : Rat
  longitude : Rat
  altitude_km : Rat
deriving DecidableEq

/-- Dictionary returned by `get_objects_above` on the non-`None` path. -/
structure AboveResult where
  category : String
  count : Int
  satellites : List AboveSatOut
deriving DecidableEq

/-- The per-satellite transformation of the `get_objects_above` loop body:
the `try/except` around `strptime` turns a missing or unparsable
`launchDate` into an absent `launch_date`. -/
def mkAboveSat (sat : AboveSat) : AboveSatOut :=
  { id := sat.satid, name := sat.satname,
    intl_designator := sat.intDesignator,
    launch_date := sat.launchDate.bind pyStrptimeDate,
    latitude := sat.satlat, longitude := sat.satlng,
    altitude_km := sat.satalt }

/-- The lookup `data.get("info").get("category")` with default "Unknown" at
each step. -/
def infoCategory : Option AboveInfo → String
  | none => "Unknown"
  | some i => i.category.getD "Unknown"

/-- Embeds `N2YOClient.get_objects_above`.  Returns `.ok none` on transport
failure (the Python method returns `None` there instead of raising). -/
def get_objects_above (lat lng alt : Rat) (search_radius category_id : Int)
    (net : HttpResult AboveResponse) :
    List Request × Except PyError (Option AboveResult) :=
  ([Request.above lat lng alt search_radius category_id],
    match net with
    | .transportFailure _ => .ok none
    | .success data =>
      match data.above with
      | none => .ok (some { category := infoCategory data.info, count := 0, satellites := [] })
      | some [] => .ok (some { category := infoCategory data.info, count := 0, satellites := [] })
      | some (sat :: rest) =>
        match data.info with
        | none => .error (.keyError "info")
        | some i =>
          match i.category with
          | none => .error (.keyError "category")
          | some cat =>
            match i.satcount with
            | none => .error (.keyError "satcount")
            | some cnt =>
              .ok (some { category := cat, count := cnt,
                          satellites := (sat :: rest).map mkAboveSat }))

/-- Claim C1, counterexample.  The claim says every satellite id that is ≤ 0
or falsy makes `get_tle` and `get_positions` raise `ValueError` before any
network call; but the code only tests Python truthiness, so the negative id
`-1` passes validation: `get_tle` issues the HTTP request (and even returns a
successful result when the service answers), and `get_positions` issues its
request as well. -/
theorem c1_counterexample :
    (get_tle (-1) (HttpResult.transportFailure "connection refused")).1
        = [Request.tle (-1)] ∧
    (get_tle (-1) (HttpResult.success ⟨some ⟨25544, "SPACE STATION", 1⟩,
        some "L1\r\nL2"⟩)).2
        = .ok ⟨25544, "SPACE STATION", 1, some "L1", some "L2"⟩ ∧
    (get_positions (-1) 1 1 0 60 (HttpResult.transportFailure "connection refused")).1
        = [Request.positions (-1) 1 1 0 60] := by
  refine ⟨rfl, ?_, rfl⟩
  rfl

/-- Claim C1, amended.  `get_tle` and `get_positions` raise `ValueError`
before issuing any network call exactly for the falsy satellite id `0` (the
only falsy integer); any non-zero id — negative ids included — passes the
id validation and the request is issued (for `get_positions`, provided the
other preconditions hold). -/
theorem c1_amended :
    (∀ net : HttpResult TleResponse,
      get_tle 0 net = ([], .error (.valueError "sat_id is required."))) ∧
    (∀ (lat lng alt : Rat) (seconds : Int) (net : HttpResult PositionsResponse),
      get_positions 0 lat lng alt seconds net
        = ([], .error (.valueError "Missing required parameters (sat_id, lat, lng)."))) ∧
    (∀ (sat_id : Int) (net : HttpResult TleResponse), sat_id ≠ 0 →
      (get_tle sat_id net).1 = [Request.tle sat_id]) ∧
    (∀ (sat_id : Int) (lat lng alt : Rat) (seconds : Int)
        (net : HttpResult PositionsResponse),
      sat_id ≠ 0 → lat ≠ 0 → lng ≠ 0 → seconds ≤ 300 →
      (get_positions sat_id lat lng alt seconds net).1
        = [Request.positions sat_id lat lng alt seconds]) := by
  refine ⟨fun net => rfl, fun lat lng alt s net => ?_, fun sid net h => ?_, ?_⟩
  · simp [get_positions]
  · simp [get_tle, h]
  · intro sid lat lng alt s net h1 h2 h3 h4
    simp [get_positions, h1, h2, h3, not_lt.mpr h4]

/-- Claim C1, witness: the amended theorem applied at the concrete id `5`. -/
theorem c1_witness :
    (get_tle 5 (HttpResult.transportFailure "x")).1 = [Request.tle 5] :=
  c1_amended.2.2.1 5 (HttpResult.transportFailure "x") (by decide)

/-- Claim C2, counterexample.  The claim says no operation raises an
invalid-argument error because of the observer coordinates, in particular
for latitude 0 and longitude 0; but `get_positions` treats a zero latitude
or longitude as a missing parameter and raises `ValueError` without issuing
a request. -/
theorem c2_counterexample :
    get_positions 25544 0 (-74) 10 60 (HttpResult.transportFailure "x")
      = ([], .error (.valueError "Missing required parameters (sat_id, lat, lng).")) ∧
    get_positions 25544 40 0 10 60 (HttpResult.transportFailure "x")
      = ([], .error (.valueError "Missing required parameters (sat_id, lat, lng).")) := by
  constructor <;> rfl

/-- Claim C2, amended.  The client performs no range validation on observer
coordinates: the outcomes of `get_visual_passes`, `get_radio_passes` and
`get_objects_above` are independent of the coordinate values, and
`get_positions` treats any non-zero latitude/longitude (and any altitude)
alike; the only coordinate-dependent failure is that `get_positions`
rejects observer latitude 0 or longitude 0 as a missing parameter — a
truthiness check, not a range check. -/
theorem c2_amended :
    (∀ (s : Int) (lat lng alt lat2 lng2 alt2 : Rat) (d v : Int) (c : Bool)
        (net : HttpResult VisualResponse),
      (get_visual_passes s lat lng alt d v c net).2
        = (get_visual_passes s lat2 lng2 alt2 d v c net).2) ∧
    (∀ (s : Int) (lat lng alt lat2 lng2 alt2 : Rat) (d e : Int) (c : Bool)
        (net : HttpResult RadioResponse),
      (get_radio_passes s lat lng alt d e c net).2
        = (get_radio_passes s lat2 lng2 alt2 d e c net).2) ∧
    (∀ (lat lng alt lat2 lng2 alt2 : Rat) (r cid : Int)
        (net : HttpResult AboveResponse),
      (get_objects_above lat lng alt r cid net).2
        = (get_objects_above lat2 lng2 alt2 r cid net).2) ∧
    (∀ (s : Int) (lat lng alt lat2 lng2 alt2 : Rat) (seconds : Int)
        (net : HttpResult PositionsResponse),
      lat ≠ 0 → lng ≠ 0 → lat2 ≠ 0 → lng2 ≠ 0 →
      (get_positions s lat lng alt seconds net).2
        = (get_positions s lat2 lng2 alt2 seconds net).2) ∧
    (∀ (s : Int) (lng alt : Rat) (seconds : Int) (net : HttpResult PositionsResponse),
      (get_positions s 0 lng alt seconds net).2
        = .error (.valueError "Missing required parameters (sat_id, lat, lng).")) ∧
    (∀ (s : Int) (lat alt : Rat) (seconds : Int) (net : HttpResult PositionsResponse),
      (get_positions s lat 0 alt seconds net).2
        = .error (.valueError "Missing required parameters (sat_id, lat, lng).")) := by
  refine ⟨fun _ _ _ _ _ _ _ _ _ _ _ => rfl, fun _ _ _ _ _ _ _ _ _ _ _ => rfl,
    fun _ _ _ _ _ _ _ _ _ => rfl, ?_, ?_, ?_⟩
  · intro s lat lng alt lat2 lng2 alt2 seconds net h1 h2 h3 h4
    by_cases hs : s = 0 <;> by_cases h300 : 300 < seconds <;>
      simp [get_positions, hs, h1, h2, h3, h4, h300]
  · intro s lng alt seconds net
    simp [get_positions]
  · intro s lat alt seconds net
    simp [get_positions]

/-- Claim C2, witness: the amended theorem's `get_positions` conjunct applied
at two concrete non-zero coordinate triples. -/
theorem c2_witness :
    (get_positions 25544 1 1 0 60 (HttpResult.transportFailure "x")).2
      = (get_positions 25544 2 2 5 60 (HttpResult.transportFailure "x")).2 :=
  c2_amended.2.2.2.1 25544 1 1 0 2 2 5 60 (HttpResult.transportFailure "x")
    (by decide) (by decide) (by decide) (by decide)

/-- Claim C3: when the HTTP request fails with a transport error, `get_tle`
re-raises the failure to the caller (as a `requests` exception, modelled
`transportError`), whereas `get_visual_passes` swallows the same failure and
returns Python `None` instead of raising. -/
theorem c3_transport_policy :
    (∀ (s : Int) (e : String), s ≠ 0 →
      (get_tle s (HttpResult.transportFailure e)).2 = .error (.transportError e)) ∧
    (∀ (s : Int) (lat lng alt : Rat) (d v : Int) (c : Bool) (e : String),
      (get_visual_passes s lat lng alt d v c (HttpResult.transportFailure e)).2
        = .ok none) := by
  refine ⟨fun s e h => by simp [get_tle, h], fun _ _ _ _ _ _ _ _ => rfl⟩

/-- Claim C3, witness: the theorem applied at the concrete id 25544 and a
concrete transport failure. -/
theorem c3_witness :
    (get_tle 25544 (HttpResult.transportFailure "timeout")).2
      = .error (.transportError "timeout") :=
  c3_transport_policy.1 25544 "timeout" (by decide)

/-- Claim C4: whenever `seconds > 300`, `get_positions` raises a `ValueError`
(whichever precondition message applies) and issues no network request. -/
theorem c4_seconds_cap :
    ∀ (s : Int) (lat lng alt : Rat) (seconds : Int) (net : HttpResult PositionsResponse),
      300 < seconds →
      (get_positions s lat lng alt seconds net).1 = [] ∧
      ∃ m, (get_positions s lat lng alt seconds net).2 = .error (.valueError m) := by
  intro s lat lng alt seconds net h
  unfold get_positions
  by_cases hc : s = 0 ∨ lat = 0 ∨ lng = 0
  · rw [if_pos hc]
    exact ⟨rfl, _, rfl⟩
  · rw [if_neg hc, if_pos h]
    exact ⟨rfl, _, rfl⟩

/-- Claim C4, witness: the theorem applied at `seconds = 301`. -/
theorem c4_witness :
    (get_positions 25544 1 1 0 301 (HttpResult.transportFailure "x")).1 = [] ∧
    ∃ m, (get_positions 25544 1 1 0 301 (HttpResult.transportFailure "x")).2
      = .error (.valueError m) :=
  c4_seconds_cap 25544 1 1 0 301 (HttpResult.transportFailure "x") (by decide)

/-- Claim C5: `get_tle` splits the raw TLE string on CRLF, discards blank
segments, and returns the first two non-blank segments as `line1`/`line2`:
the payload `"LINE1\r\nLINE2\r\n"` yields `line1 = "LINE1"`,
`line2 = "LINE2"`; a payload with a single non-blank segment leaves `line2`
absent; blank segments (here a whitespace-only one) are discarded; and in
general the two lines are the first two elements of the filtered split. -/
theorem c5_tle_split :
    ((get_tle 25544 (HttpResult.success ⟨some ⟨25544, "SPACE STATION", 7⟩,
        some "LINE1\r\nLINE2\r\n"⟩)).2
      = .ok ⟨25544, "SPACE STATION", 7, some "LINE1", some "LINE2"⟩) ∧
    ((get_tle 25544 (HttpResult.success ⟨some ⟨25544, "SPACE STATION", 7⟩,
        some "ONLYLINE\r\n"⟩)).2
      = .ok ⟨25544, "SPACE STATION", 7, some "ONLYLINE", none⟩) ∧
    ((get_tle 25544 (HttpResult.success ⟨some ⟨25544, "SPACE STATION", 7⟩,
        some "  \r\nA\r\nB\r\nC"⟩)).2
      = .ok ⟨25544, "SPACE STATION", 7, some "A", some "B"⟩) ∧
    (∀ (s : Int) (i : TleInfo) (t : String), s ≠ 0 →
      (get_tle s (HttpResult.success ⟨some i, some t⟩)).2
        = .ok ⟨i.satid, i.satname, i.transactionscount,
               ((pySplitCRLF t).filter fun l => ! pyBlank l)[0]?,
               ((pySplitCRLF t).filter fun l => ! pyBlank l)[1]?⟩) := by
  refine ⟨rfl, rfl, rfl, fun s i t h => by simp [get_tle, tleLines, h]⟩

/-- Claim C5, witness: the general conjunct applied at a concrete id, info
and TLE payload. -/
theorem c5_witness :
    (get_tle 20580 (HttpResult.success ⟨some ⟨20580, "HST", 3⟩,
        some "H1\r\nH2\r\n"⟩)).2
      = .ok ⟨20580, "HST", 3,
             ((pySplitCRLF "H1\r\nH2\r\n").filter fun l => ! pyBlank l)[0]?,
             ((pySplitCRLF "H1\r\nH2\r\n").filter fun l => ! pyBlank l)[1]?⟩ :=
  c5_tle_split.2.2.2 20580 ⟨20580, "HST", 3⟩ "H1\r\nH2\r\n" (by decide)

/-- Claim C6: `get_radio_passes` computes each pass's `duration_sec`
client-side as the end timestamp minus the start timestamp — concretely
`startUTC = 1000`, `endUTC = 1090` yield `90` even though the payload's own
`duration` key says `9999` — and the output is entirely independent of the
payload's `duration` field. -/
theorem c6_radio_duration :
    ((get_radio_passes 25544 1 1 0 2 30 false (HttpResult.success
        ⟨some ⟨some "ISS"⟩, some [⟨1000, 1040, 1090, some 9999, "N", "S", 45⟩]⟩)).2
      = .ok (some ⟨"ISS", [⟨⟨1000, false⟩, ⟨1040, false⟩, ⟨1090, false⟩, 90,
          "N", "S", 45⟩]⟩)) ∧
    (∀ (c : Bool) (p : RadioPassPayload),
      (mkRadioPass c p).duration_sec = p.endUTC - p.startUTC) ∧
    (∀ (c : Bool) (p : RadioPassPayload) (d : Option Int),
      mkRadioPass c { p with duration := d } = mkRadioPass c p) ∧
    (∀ (s : Int) (lat lng alt : Rat) (d e : Int) (c : Bool) (name : String)
        (p : RadioPassPayload) (rest : List RadioPassPayload),
      (get_radio_passes s lat lng alt d e c (HttpResult.success
          ⟨some ⟨some name⟩, some (p :: rest)⟩)).2
        = .ok (some ⟨name, (p :: rest).map (mkRadioPass c)⟩)) := by
  exact ⟨rfl, fun c p => rfl, fun c p d => rfl,
    fun _ _ _ _ _ _ _ _ _ _ => rfl⟩

/-- Claim C7: when the visual-passes payload has no `passes` key or an empty
`passes` list, `get_visual_passes` returns (rather than failing) a result
with an empty passes sequence whose satellite name is the payload's
`info.satname` when present and "Unknown" otherwise. -/
theorem c7_empty_passes :
    (∀ (s : Int) (lat lng alt : Rat) (d v : Int) (c : Bool)
        (info : Option SatInfo),
      (get_visual_passes s lat lng alt d v c (HttpResult.success ⟨info, none⟩)).2
        = .ok (some ⟨infoSatname info, []⟩)) ∧
    (∀ (s : Int) (lat lng alt : Rat) (d v : Int) (c : Bool)
        (info : Option SatInfo),
      (get_visual_passes s lat lng alt d v c (HttpResult.success ⟨info, some []⟩)).2
        = .ok (some ⟨infoSatname info, []⟩)) ∧
    (∀ n : String, infoSatname (some ⟨some n⟩) = n) ∧
    infoSatname (some ⟨none⟩) = "Unknown" ∧
    infoSatname none = "Unknown" := by
  exact ⟨fun _ _ _ _ _ _ _ _ => rfl, fun _ _ _ _ _ _ _ _ => rfl,
    fun n => rfl, rfl, rfl⟩

/-- Claim C8: an objects-above satellite whose `launchDate` is missing or not
parsable as a `YYYY-MM-DD` date (such as `"2021-13-40"`, whose month is out
of range) gets an absent `launch_date` with no error raised, while all its
other fields are still populated from the payload; a valid date like
`"2021-11-30"` does parse, so the absence is specific to bad inputs. -/
theorem c8_launch_date :
    ((get_objects_above 1 1 0 90 0 (HttpResult.success
        ⟨some ⟨some "All categories", some 3⟩,
         some [⟨900, "BAD-SAT", "2021-001A", some "2021-13-40", 10, 20, 550⟩]⟩)).2
      = .ok (some ⟨"All categories", 3,
          [⟨900, "BAD-SAT", "2021-001A", none, 10, 20, 550⟩]⟩)) ∧
    (pyStrptimeDate "2021-13-40" = none) ∧
    (pyStrptimeDate "2021-11-30" = some ⟨2021, 11, 30⟩) ∧
    (∀ sat : AboveSat, sat.launchDate = none →
      mkAboveSat sat = ⟨sat.satid, sat.satname, sat.intDesignator, none,
        sat.satlat, sat.satlng, sat.satalt⟩) ∧
    (∀ (sat : AboveSat) (str : String), sat.launchDate = some str →
      pyStrptimeDate str = none →
      mkAboveSat sat = ⟨sat.satid, sat.satname, sat.intDesignator, none,
        sat.satlat, sat.satlng, sat.satalt⟩) := by
  refine ⟨rfl, by decide, by decide, fun sat h => by simp [mkAboveSat, h],
    fun sat str h1 h2 => by simp [mkAboveSat, h1, h2]⟩

/-- Claim C8, witness: the unparsable-date conjunct applied at the concrete
satellite entry whose launch date reads `"2021-13-40"`. -/
theorem c8_witness :
    mkAboveSat ⟨900, "BAD-SAT", "2021-001A", some "2021-13-40", 10, 20, 550⟩
      = ⟨900, "BAD-SAT", "2021-001A", none, 10, 20, 550⟩ :=
  c8_launch_date.2.2.2.2 ⟨900, "BAD-SAT", "2021-001A", some "2021-13-40", 10, 20, 550⟩
    "2021-13-40" rfl (by decide)

/-- Claim C9: each operation's result list is the elementwise image of the
corresponding payload list — `get_visual_passes`, `get_positions` and
`get_objects_above` map their payload lists through the respective loop-body
transforms, so the result has exactly one element per payload element, the
lengths agree, and the element at every index keeps the remote order (its
identifying field equals that of the payload element at the same index); no
sorting, filtering or deduplication happens. -/
theorem c9_order_preserved :
    (∀ (s : Int) (lat lng alt : Rat) (d v : Int) (c : Bool) (name : String)
        (p : VisualPassPayload) (rest : List VisualPassPayload),
      (get_visual_passes s lat lng alt d v c (HttpResult.success
          ⟨some ⟨some name⟩, some (p :: rest)⟩)).2
        = .ok (some ⟨name, (p :: rest).map (mkVisualPass c)⟩)) ∧
    (∀ (s : Int) (lat lng alt : Rat) (seconds : Int) (i : TleInfo)
        (ps : List PosPayload),
      s ≠ 0 → lat ≠ 0 → lng ≠ 0 → seconds ≤ 300 →
      (get_positions s lat lng alt seconds (HttpResult.success ⟨some i, some ps⟩)).2
        = .ok ⟨i.satid, i.satname, i.transactionscount, ps.map mkPos⟩) ∧
    (∀ (lat lng alt : Rat) (r cid : Int) (cat : String) (cnt : Int)
        (sat : AboveSat) (rest : List AboveSat),
      (get_objects_above lat lng alt r cid (HttpResult.success
          ⟨some ⟨some cat, some cnt⟩, some (sat :: rest)⟩)).2
        = .ok (some ⟨cat, cnt, (sat :: rest).map mkAboveSat⟩)) ∧
    (∀ (c : Bool) (ps : List VisualPassPayload),
      (ps.map (mkVisualPass c)).length = ps.length ∧
      ∀ k : Nat, ((ps.map (mkVisualPass c))[k]?.map fun q => q.start_time.epoch)
        = (ps[k]?.map fun q => q.startUTC)) ∧
    (∀ ps : List PosPayload,
      (ps.map mkPos).length = ps.length ∧
      ∀ k : Nat, ((ps.map mkPos)[k]?.map fun q => q.timestamp)
        = (ps[k]?.map fun q => q.timestamp)) ∧
    (∀ sats : List AboveSat,
      (sats.map mkAboveSat).length = sats.length ∧
      ∀ k : Nat, ((sats.map mkAboveSat)[k]?.map fun q => q.id)
        = (sats[k]?.map fun q => q.satid)) := by
  refine ⟨fun _ _ _ _ _ _ _ _ _ _ => rfl, ?_, fun _ _ _ _ _ _ _ _ _ => rfl,
    fun c ps => ⟨List.length_map ps _, fun k => ?_⟩,
    fun ps => ⟨List.length_map ps _, fun k => ?_⟩,
    fun sats => ⟨List.length_map sats _, fun k => ?_⟩⟩
  · intro s lat lng alt seconds i ps h1 h2 h3 h4
    simp [get_positions, h1, h2, h3, not_lt.mpr h4]
  · simp [List.getElem?_map, Option.map_map]
    rfl
  · simp [List.getElem?_map, Option.map_map]
    rfl
  · simp [List.getElem?_map, Option.map_map]
    rfl

/-- Claim C9, witness: the `get_positions` conjunct applied at a concrete
one-point payload. -/
theorem c9_witness :
    (get_positions 25544 1 1 0 60 (HttpResult.success
        ⟨some ⟨25544, "SPACE STATION", 2⟩,
         some [⟨10, 20, some 420, 30, 40, 50, 60, 1700000000⟩]⟩)).2
      = .ok ⟨25544, "SPACE STATION", 2,
          [⟨10, 20, some 420, 30, 40, 50, 60, 1700000000⟩].map mkPos⟩ :=
  c9_order_preserved.2.1 25544 1 1 0 60 ⟨25544, "SPACE STATION", 2⟩
    [⟨10, 20, some 420, 30, 40, 50, 60, 1700000000⟩]
    (by decide) (by decide) (by decide) (by decide)

/-- Claim C10: with a non-empty `above` list, `get_objects_above` copies
`count` verbatim from the payload's `info.satcount` — a concrete payload
whose `satcount` is 17 but whose `above` list has one element returns
`count = 17 ≠ 1` — whereas a missing or empty `above` list yields `count = 0`
with an empty satellites list. -/
theorem c10_count_verbatim :
    (∀ (lat lng alt : Rat) (r cid : Int) (cat : String) (cnt : Int)
        (sat : AboveSat) (rest : List AboveSat),
      (get_objects_above lat lng alt r cid (HttpResult.success
          ⟨some ⟨some cat, some cnt⟩, some (sat :: rest)⟩)).2
        = .ok (some ⟨cat, cnt, (sat :: rest).map mkAboveSat⟩)) ∧
    (∃ res : AboveResult,
      (get_objects_above 1 1 0 90 0 (HttpResult.success
          ⟨some ⟨some "All categories", some 17⟩,
           some [⟨900, "SAT", "2021-001A", none, 10, 20, 550⟩]⟩)).2
        = .ok (some res) ∧ res.count ≠ (res.satellites.length : Int)) ∧
    (∀ (lat lng alt : Rat) (r cid : Int) (info : Option AboveInfo),
      (get_objects_above lat lng alt r cid (HttpResult.success ⟨info, none⟩)).2
        = .ok (some ⟨infoCategory info, 0, []⟩)) ∧
    (∀ (lat lng alt : Rat) (r cid : Int) (info : Option AboveInfo),
      (get_objects_above lat lng alt r cid (HttpResult.success ⟨info, some []⟩)).2
        = .ok (some ⟨infoCategory info, 0, []⟩)) := by
  refine ⟨fun _ _ _ _ _ _ _ _ _ => rfl, ⟨_, rfl, by decide⟩,
    fun _ _ _ _ _ _ => rfl, fun _ _ _ _ _ _ => rfl⟩
